import Mathlib

/-!
Verification development for the embedded static-file HTTP server of
`vtsuru-fetcher-client` (`src/src-tauri/src/file_server.rs`).

The Rust code is shallowly embedded as follows:

* `FileServerConfig`, `FileServerStatus` — direct translations of the Rust
  structs; the `u16` port is a `Nat`, with the bound `port < 65536`
  carried as a hypothesis where the 16-bit width matters.
* `ManagerState` — the mutable state of `FileServerManager`
  (`config`, `shutdown_sender : Option<oneshot::Sender<()>>` as
  `Option Unit`, and the `running` flag).
* `start_server` — the filesystem is abstracted as a function
  `String → PathStat` giving `exists()` / `is_dir()` for a path, and the
  socket bind outcome inside the spawned worker thread is a `Bool`
  parameter.  `StartOutcome` records the returned `Result`, the manager
  state at the moment `start_server` returns (`post`), and the state once
  the spawned worker has executed its bind step (`final`): the worker's
  writes to `running` happen after `start_server` releases the lock it
  holds for its whole body, so they are sequenced after `post`.
* `stop_server` — `signalFired` records whether the taken one-shot
  sender was actually used to send the shutdown signal.
* Request dispatch (`handle_request`) — the resolved path
  (`path.join(&url_path[1..])`) is abstracted as a `ResolvedPath` value:
  a regular file with its read result and extension, a directory with its
  entry-enumeration result, or nothing.
* `generate_directory_listing` — `fs::read_dir` is abstracted as the
  list of entries it yields; each `DirEntry` carries
  `file_name().to_str()` as an `Option String` (`none` = the name is not
  valid UTF-8) and `is_dir()`.  Rust's `str::is_empty` tests are written
  as equality with the empty string / list, and `rsplitn(2, '/')` is
  `rsplitOnce` on the character list.
-/

/-- Rust struct `FileServerConfig { folder_path, port: u16 }`. -/
structure FileServerConfig where
  folder_path : String
  port : Nat
deriving DecidableEq

/-- Rust struct `FileServerStatus { running, folder_path, port }`. -/
structure FileServerStatus where
  running : Bool
  folder_path : String
  port : Nat
deriving DecidableEq

/-- The shared mutable state owned by `FileServerManager`:
`config`, `shutdown_sender` (`Some tx` modelled as `some ()`), `running`. -/
structure ManagerState where
  config : FileServerConfig
  shutdown_sender : Option Unit
  running : Bool
deriving DecidableEq

/-- Model of `FileServerManager::new()`: empty folder path, port 8080, no sender,
not running. -/
def new_manager : ManagerState :=
  { config := { folder_path := "", port := 8080 }
    shutdown_sender := none
    running := false }

/-- What `Path::exists()` and `Path::is_dir()` report for a path. -/
structure PathStat where
  pathExists : Bool
  isDir : Bool
deriving DecidableEq

/-- Error string of the `AlreadyRunning` condition in `start_server`. -/
def alreadyRunningMsg : String := "服务器已经在运行中"

/-- Error string of the `MissingFolder` condition in `start_server`. -/
def missingFolderMsg : String := "文件夹路径未设置"

/-- Error string prefix of the `FolderNotFound` condition in `start_server`
(`format!("文件夹不存在: {}", config.folder_path)`). -/
def folderNotFoundMsg (folder_path : String) : String :=
  "文件夹不存在: " ++ folder_path

/-- Error string of the `NotRunning` condition in `stop_server`. -/
def notRunningMsg : String := "服务器未运行"

/-- Error string of the `InvalidPort` condition in `update_config`. -/
def invalidPortMsg : String := "端口号必须在1024到65535之间"

/-- Result of one `start_server` call: the returned `Result`, the manager
state when the call returns, and the state after the spawned worker thread
has executed its bind step (the worker's lock acquisitions are sequenced
after the caller releases the `running` lock it holds throughout). -/
structure StartOutcome where
  result : Except String FileServerStatus
  post : ManagerState
  final : ManagerState

/-- Model of `FileServerManager::start_server`.  `fs` abstracts the filesystem
checks on `config.folder_path`; `bindOk` is the outcome of
`Server::http(&addr)` inside the spawned thread.  On the success path the
caller stores the one-shot sender, spawns the worker, sets `running :=
true` and returns an `Ok` status; the worker then either starts serving
(bind ok: `running := true`) or logs the error and rolls `running` back to
`false` (bind failed) — in both cases after `start_server` has already
returned. -/
def start_server (fs : String → PathStat) (bindOk : Bool)
    (st : ManagerState) : StartOutcome :=
  if st.running then
    { result := .error alreadyRunningMsg, post := st, final := st }
  else
    let config := st.config
    if config.folder_path = "" then
      { result := .error missingFolderMsg, post := st, final := st }
    else
      let stat := fs config.folder_path
      if !stat.pathExists || !stat.isDir then
        { result := .error (folderNotFoundMsg config.folder_path)
          post := st, final := st }
      else
        let post : ManagerState :=
          { st with shutdown_sender := some (), running := true }
        let final : ManagerState := { post with running := bindOk }
        { result := .ok { running := true
                          folder_path := config.folder_path
                          port := config.port }
          post := post
          final := final }

/-- Result of one `stop_server` call: the returned `Result`, the manager
state when the call returns, and whether the one-shot shutdown signal was
actually sent (`if let Some(tx) = sender.take() { tx.send(()) }`). -/
structure StopOutcome where
  result : Except String FileServerStatus
  post : ManagerState
  signalFired : Bool

/-- Model of `FileServerManager::stop_server`. -/
def stop_server (st : ManagerState) : StopOutcome :=
  if !st.running then
    { result := .error notRunningMsg, post := st, signalFired := false }
  else
    let fired := st.shutdown_sender.isSome
    { result := .ok { running := false
                      folder_path := st.config.folder_path
                      port := st.config.port }
      post := { st with shutdown_sender := none, running := false }
      signalFired := fired }

/-- Model of `FileServerManager::update_config`.  Note the source order: a supplied
`folder_path` is written into the locked config before the port is
validated, and the early `InvalidPort` return leaves that write in place. -/
def update_config (folder_path : Option String) (port : Option Nat)
    (st : ManagerState) : Except String FileServerConfig × ManagerState :=
  let config := st.config
  let config :=
    match folder_path with
    | some path => { config with folder_path := path }
    | none => config
  match port with
  | some p =>
    if p < 1024 ∨ p > 65535 then
      (.error invalidPortMsg, { st with config := config })
    else
      let config := { config with port := p }
      (.ok config, { st with config := config })
  | none => (.ok config, { st with config := config })

/-- Model of `FileServerManager::get_status`. -/
def get_status (st : ManagerState) : FileServerStatus :=
  { running := st.running
    folder_path := st.config.folder_path
    port := st.config.port }

/-- The MIME table of the request dispatcher, applied to
`file_path.extension().and_then(|e| e.to_str())`. -/
def mime_type (ext : Option String) : String :=
  match ext with
  | some e =>
    if e = "html" then "text/html"
    else if e = "css" then "text/css"
    else if e = "js" then "application/javascript"
    else if e = "jpg" ∨ e = "jpeg" then "image/jpeg"
    else if e = "png" then "image/png"
    else if e = "gif" then "image/gif"
    else if e = "svg" then "image/svg+xml"
    else if e = "json" then "application/json"
    else "application/octet-stream"
  | none => "application/octet-stream"

/-- The extensions that the MIME table maps to a specific type. -/
def mimeKeys : List String :=
  ["html", "css", "js", "jpg", "jpeg", "png", "gif", "svg", "json"]

/-- One entry yielded by `fs::read_dir`: `file_name().to_str()` (already
`none` when the name is not valid UTF-8) and `path.is_dir()`. -/
structure DirEntry where
  name : Option String
  isDir : Bool
deriving DecidableEq

/-- Model of `url_path.rsplitn(2, '/')` succeeding: splits a character list at the
LAST occurrence of `c`, returning (part before, part after). -/
def rsplitOnce : List Char → Char → Option (List Char × List Char)
  | [], _ => none
  | x :: xs, c =>
    match rsplitOnce xs c with
    | some (pre, post) => some (x :: pre, post)
    | none => if x = c then some ([], xs) else none

/-- The parent-directory link emitted by `generate_directory_listing`:
present exactly when `url_path != "/"` and `rsplitn(2, '/')` yields two
parts (the path contains a separator); its target is the part before the
last separator, or `"/"` when that part is empty. -/
def parentLink (url_path : String) : Option String :=
  if url_path ≠ "/" then
    match rsplitOnce url_path.data '/' with
    | some (pre, _after) =>
      some (if pre = [] then "/" else String.mk pre)
    | none => none
  else none

/-- Model of `url_path.trim_end_matches('/')`: drop every trailing separator. -/
def trimEndSlashes (s : String) : String :=
  String.mk (s.data.reverse.dropWhile (fun c => c == '/')).reverse

/-- The `file_url` computed for one listing entry:
`format!("{}{}{}", url_path.trim_end_matches('/'),
if url_path.ends_with('/') \x7b "" \x7d else \x7b "/" \x7d, file_name_str)`. -/
def file_url (url_path : String) (file_name_str : String) : String :=
  trimEndSlashes url_path
    ++ (if url_path.endsWith "/" then "" else "/")
    ++ file_name_str

/-- The data of one `<li>` entry of the listing: href, anchor text, and
whether the entry is a directory. -/
structure EntryLink where
  href : String
  label : String
  isDir : Bool
deriving DecidableEq

/-- The link the listing emits for one directory entry: entries whose
name is not valid text (`to_str()` returned `None`) yield nothing and are
skipped. -/
def entryLink (url_path : String) (e : DirEntry) : Option EntryLink :=
  match e.name with
  | some file_name_str =>
    some { href := file_url url_path file_name_str
           label := file_name_str
           isDir := e.isDir }
  | none => none

/-- The `<li>` HTML line pushed for one linked entry
(`"<li><a href=\"{}\">{}</a> ({})</li>\n"` with `目录`/`文件`). -/
def entryHtml (l : EntryLink) : String :=
  "<li><a href=\"" ++ l.href ++ "\">" ++ l.label ++ "</a> ("
    ++ (if l.isDir then "目录" else "文件") ++ ")</li>\n"

/-- The fixed HTML prologue of the listing page, ending with the `<h1>`
title holding the requested URL path and the opening `<ul>`. -/
def listingHeader (url_path : String) : String :=
  "<!DOCTYPE html>\n<html>\n<head>\n<title>目录列表</title>\n"
    ++ "<style>body\x7bfont-family:Arial,sans-serif;margin:20px;\x7dh1\x7bcolor:#333;\x7dul\x7blist-style-type:none;padding:0;\x7dli\x7bmargin:5px 0;\x7da\x7btext-decoration:none;color:#0077cc;\x7da:hover\x7btext-decoration:underline;\x7d</style>\n"
    ++ "</head>\n<body>\n"
    ++ "<h1>目录: " ++ url_path ++ "</h1>\n<ul>\n"

/-- The `<li>` pushed for the parent link, when one is emitted. -/
def parentHtml (url_path : String) : String :=
  match parentLink url_path with
  | some parent_url =>
    "<li><a href=\"" ++ parent_url ++ "\">..</a> (上级目录)</li>\n"
  | none => ""

/-- Sequential concatenation of the pushed `<li>` lines. -/
def concatAll : List String → String
  | [] => ""
  | s :: rest => s ++ concatAll rest

/-- Model of `generate_directory_listing`, with `fs::read_dir(dir_path)` abstracted
as the entry list it yields (the `io::Result` failure case never produces
a page, so only the `Ok` page is modelled; the dispatcher models the
failure branch). -/
def generate_directory_listing (url_path : String)
    (entries : List DirEntry) : String :=
  listingHeader url_path
    ++ parentHtml url_path
    ++ concatAll ((entries.filterMap (entryLink url_path)).map entryHtml)
    ++ "</ul>\n</body>\n</html>"

/-- The anchor texts of the entry links of the listing (parent link
excluded). -/
def listingLinkedNames (url_path : String) (entries : List DirEntry) :
    List String :=
  (entries.filterMap (entryLink url_path)).map EntryLink.label

/-- File contents, the `Vec<u8>` of `fs::read`. -/
abbrev Bytes := List Nat

/-- Body of an HTTP response: `Response::from_data` carries bytes,
`Response::from_string` carries text. -/
inductive RespBody
  | bytes (content : Bytes)
  | text (s : String)

/-- The observable part of a `tiny_http` response built by the
dispatcher: status code, the `Content-Type` header when one is attached,
and the body. -/
structure HttpResponse where
  status : Nat
  contentType : Option String
  body : RespBody

/-- What `path.join(&url_path[1..])` resolves to, together with the I/O
outcomes the dispatcher inspects: a regular file with its `fs::read`
result and `extension().and_then(to_str)`, a directory with its
`read_dir` enumeration result, or nothing. -/
inductive ResolvedPath
  | file (readResult : Except String Bytes) (ext : Option String)
  | dir (entriesResult : Except String (List DirEntry))
  | missing

/-- The per-request dispatch of `start_server`'s worker loop. -/
def handle_request (rp : ResolvedPath) (url_path : String) : HttpResponse :=
  match rp with
  | .file readResult ext =>
    match readResult with
    | .ok content =>
      { status := 200
        contentType := some (mime_type ext)
        body := .bytes content }
    | .error err =>
      { status := 500
        contentType := none
        body := .text ("Error reading file: " ++ err) }
  | .dir entriesResult =>
    match entriesResult with
    | .ok entries =>
      { status := 200
        contentType := some "text/html; charset=utf-8"
        body := .text (generate_directory_listing url_path entries) }
    | .error err =>
      { status := 500
        contentType := none
        body := .text ("Error listing directory: " ++ err) }
  | .missing =>
    { status := 404, contentType := none, body := .text "File not found" }

/-- Filesystem in which every path exists and is a directory. -/
def fsAll : String → PathStat :=
  fun _ => { pathExists := true, isDir := true }

/-- Filesystem in which no path exists. -/
def fsNone : String → PathStat :=
  fun _ => { pathExists := false, isDir := false }

/-- A manager configured with an existing served folder, not running. -/
def stServed : ManagerState :=
  { config := { folder_path := "served", port := 8080 }
    shutdown_sender := none
    running := false }

/-- A manager holding a prior valid configuration. -/
def stOld : ManagerState :=
  { config := { folder_path := "old", port := 2000 }
    shutdown_sender := none
    running := false }

/-! ### Helper lemmas -/

theorem rsplitOnce_none (c : Char) :
    ∀ l : List Char, rsplitOnce l c = none → c ∉ l := by
  intro l
  induction l with
  | nil => intro _h; simp
  | cons x xs ih =>
    intro h
    simp only [rsplitOnce] at h
    cases hx : rsplitOnce xs c with
    | some pr => rw [hx] at h; simp at h
    | none =>
      rw [hx] at h
      by_cases hxc : x = c
      · simp [hxc] at h
      · simp only [List.mem_cons, not_or]
        exact ⟨fun hc => hxc hc.symm, ih hx⟩

theorem rsplitOnce_sound (c : Char) :
    ∀ (l pre post : List Char), rsplitOnce l c = some (pre, post) →
      l = pre ++ c :: post ∧ c ∉ post := by
  intro l
  induction l with
  | nil => intro pre post h; simp [rsplitOnce] at h
  | cons x xs ih =>
    intro pre post h
    simp only [rsplitOnce] at h
    cases hx : rsplitOnce xs c with
    | some pr =>
      obtain ⟨p, s⟩ := pr
      rw [hx] at h
      simp at h
      obtain ⟨hpre, hpost⟩ := h
      obtain ⟨hl, hn⟩ := ih p s hx
      subst hpre
      subst hpost
      exact ⟨by rw [hl]; rfl, hn⟩
    | none =>
      rw [hx] at h
      by_cases hxc : x = c
      · simp [hxc] at h
        obtain ⟨hpre, hpost⟩ := h
        subst hpre
        subst hpost
        exact ⟨by simp [hxc], rsplitOnce_none c xs hx⟩
      · simp [hxc] at h

theorem infix_of_mem_concatAll (s : String) :
    ∀ L : List String, s ∈ L → s.data <:+: (concatAll L).data := by
  intro L
  induction L with
  | nil => intro h; simp at h
  | cons a rest ih =>
    intro h
    rcases List.mem_cons.mp h with h | h
    · subst h
      exact ⟨[], (concatAll rest).data, by simp [concatAll, String.data_append]⟩
    · refine (ih h).trans ⟨a.data, [], ?_⟩
      simp [concatAll, String.data_append]

theorem concat_infix_listing (url_path : String) (entries : List DirEntry) :
    (concatAll ((entries.filterMap (entryLink url_path)).map entryHtml)).data
      <:+: (generate_directory_listing url_path entries).data := by
  have h := List.infix_append
    ((listingHeader url_path).data ++ (parentHtml url_path).data)
    (concatAll ((entries.filterMap (entryLink url_path)).map entryHtml)).data
    ("</ul>\n</body>\n</html>" : String).data
  simpa [generate_directory_listing, String.data_append, List.append_assoc]
    using h

theorem parentHtml_infix_listing (url_path : String)
    (entries : List DirEntry) :
    (parentHtml url_path).data
      <:+: (generate_directory_listing url_path entries).data := by
  simp [generate_directory_listing, String.data_append, List.append_assoc]

theorem entryHtml_infix (url_path : String) (entries : List DirEntry)
    (lk : EntryLink) (h : lk ∈ entries.filterMap (entryLink url_path)) :
    (entryHtml lk).data <:+: (generate_directory_listing url_path entries).data := by
  have h2 : entryHtml lk ∈ (entries.filterMap (entryLink url_path)).map entryHtml :=
    List.mem_map_of_mem entryHtml h
  exact (infix_of_mem_concatAll _ _ h2).trans (concat_infix_listing url_path entries)

theorem listingLinkedNames_cons_some (url_path : String) (e : DirEntry)
    (rest : List DirEntry) (n : String) (h : e.name = some n) :
    listingLinkedNames url_path (e :: rest)
      = n :: listingLinkedNames url_path rest := by
  simp [listingLinkedNames, List.filterMap_cons, entryLink, h]

theorem listingLinkedNames_cons_none (url_path : String) (e : DirEntry)
    (rest : List DirEntry) (h : e.name = none) :
    listingLinkedNames url_path (e :: rest)
      = listingLinkedNames url_path rest := by
  simp [listingLinkedNames, List.filterMap_cons, entryLink, h]

theorem linkedNames_eq_filterMap (url_path : String) :
    ∀ entries : List DirEntry,
      listingLinkedNames url_path entries
        = entries.filterMap DirEntry.name := by
  intro entries
  induction entries with
  | nil => rfl
  | cons e rest ih =>
    cases hn : e.name with
    | some n =>
      rw [listingLinkedNames_cons_some url_path e rest n hn]
      simp [List.filterMap_cons, hn, ih]
    | none =>
      rw [listingLinkedNames_cons_none url_path e rest hn]
      simp [List.filterMap_cons, hn, ih]

theorem linkedNames_of_map_some (url_path : String) :
    ∀ (entries : List DirEntry) (ns : List String),
      entries.map DirEntry.name = ns.map some →
      listingLinkedNames url_path entries = ns := by
  intro entries
  induction entries with
  | nil =>
    intro ns h
    cases ns with
    | nil => rfl
    | cons n ns2 => simp at h
  | cons e rest ih =>
    intro ns h
    cases ns with
    | nil => simp at h
    | cons n ns2 =>
      simp only [List.map_cons, List.cons.injEq] at h
      obtain ⟨h1, h2⟩ := h
      rw [listingLinkedNames_cons_some url_path e rest n h1, ih ns2 h2]

theorem filterMap_entryLink_filter (url_path : String) :
    ∀ entries : List DirEntry,
      entries.filterMap (entryLink url_path)
        = (entries.filter fun e => (DirEntry.name e).isSome).filterMap
            (entryLink url_path) := by
  intro entries
  induction entries with
  | nil => rfl
  | cons e rest ih =>
    cases hn : e.name with
    | some n => simp [List.filterMap_cons, List.filter_cons, hn, entryLink, ih]
    | none => simp [List.filterMap_cons, List.filter_cons, hn, entryLink, ih]

theorem mime_type_default (e : String) (h : e ∉ mimeKeys) :
    mime_type (some e) = "application/octet-stream" := by
  simp only [mimeKeys, List.mem_cons, List.not_mem_nil, or_false, not_or] at h
  obtain ⟨h1, h2, h3, h4, h5, h6, h7, h8, h9⟩ := h
  simp [mime_type, h1, h2, h3, h4, h5, h6, h7, h8, h9]

theorem start_server_ok_shape (fs : String → PathStat) (bindOk : Bool)
    (st : ManagerState) (s : FileServerStatus)
    (h : (start_server fs bindOk st).result = .ok s) :
    st.running = false
    ∧ (start_server fs bindOk st).post
        = { st with shutdown_sender := some (), running := true }
    ∧ (start_server fs bindOk st).final
        = { st with shutdown_sender := some (), running := bindOk }
    ∧ s = { running := true
            folder_path := st.config.folder_path
            port := st.config.port } := by
  by_cases hr : st.running = true
  · simp [start_server, hr] at h
  · by_cases he : st.config.folder_path = ""
    · simp [start_server, hr, he] at h
    · by_cases hs : (!(fs st.config.folder_path).pathExists
          || !(fs st.config.folder_path).isDir) = true
      · simp [start_server, hr, he, hs] at h
      · simp only [start_server, hr, he, hs, if_false, if_neg,
          Bool.not_eq_true, Except.ok.injEq] at h
        refine ⟨by simpa using hr, ?_, ?_, h.symm⟩
        · simp [start_server, hr, he, hs]
        · simp [start_server, hr, he, hs]

/-! ### Claims -/

/-- C1 (counterexample): with prior config `("old", 2000)`, calling
`update_config` with folder path `"new"` and the out-of-range port 80
returns `InvalidPort` but the stored `folder_path` has changed to
`"new"`, refuting the claim that the stored configuration is left
unchanged. -/
theorem update_config_invalid_port_changes_folder :
    (update_config (some "new") (some 80) stOld).1 = .error invalidPortMsg
    ∧ (update_config (some "new") (some 80) stOld).2.config.folder_path = "new"
    ∧ stOld.config.folder_path = "old" :=
  ⟨rfl, rfl, rfl⟩

/-- C1 (amended): calling `update_config` with a port outside
[1024, 65535] returns `InvalidPort` and leaves the stored port
unchanged; a folder path supplied in the same call, however, has already
been applied before the port check and remains stored. -/
theorem update_config_invalid_port_keeps_port (st : ManagerState)
    (folder_path : Option String) (p : Nat)
    (hp : p < 1024 ∨ p > 65535) :
    (update_config folder_path (some p) st).1 = .error invalidPortMsg
    ∧ (update_config folder_path (some p) st).2.config.port = st.config.port
    ∧ (update_config folder_path (some p) st).2.config.folder_path
        = folder_path.getD st.config.folder_path := by
  cases folder_path <;> simp [update_config, hp, Option.getD]

/-- C1 (witness): the amended claim at config update `("w", 70000)` on the
fresh manager. -/
theorem update_config_invalid_port_keeps_port_witness :
    (update_config (some "w") (some 70000) new_manager).1 = .error invalidPortMsg
    ∧ (update_config (some "w") (some 70000) new_manager).2.config.port
        = new_manager.config.port
    ∧ (update_config (some "w") (some 70000) new_manager).2.config.folder_path
        = (some "w").getD new_manager.config.folder_path :=
  update_config_invalid_port_keeps_port new_manager (some "w") 70000
    (Or.inr (by norm_num))

/-- C2 (code bug): with an existing directory configured and the bind
failing inside the worker thread, `start_server` still returns a success
status with `running = true`; the `BindFailed` condition is never
surfaced to the caller — only the worker's later rollback sets the
running flag back to false. -/
theorem start_bind_failure_not_reported :
    (start_server fsAll false stServed).result
      = .ok { running := true, folder_path := "served", port := 8080 }
    ∧ (start_server fsAll false stServed).post.running = true
    ∧ (start_server fsAll false stServed).final.running = false :=
  ⟨rfl, rfl, rfl⟩

/-- C3: for a requested URL path other than `"/"` (URL paths begin with
`'/'`), the listing emits a parent link whose target is the path
truncated at its last separator — the part `pre` before the last `'/'` —
or `"/"` when nothing precedes that separator; the corresponding `<li>`
is part of the generated page for every entry list. -/
theorem listing_parent_link (url_path : String)
    (hroot : url_path ≠ "/") (hslash : url_path.data.head? = some '/') :
    ∃ pre rest, url_path.data = pre ++ '/' :: rest ∧ '/' ∉ rest
      ∧ parentLink url_path = some (if pre = [] then "/" else String.mk pre)
      ∧ ∀ entries : List DirEntry,
          ("<li><a href=\"" ++ (if pre = [] then "/" else String.mk pre)
              ++ "\">..</a> (上级目录)</li>\n").data
            <:+: (generate_directory_listing url_path entries).data := by
  have hmem : '/' ∈ url_path.data := by
    cases hd : url_path.data with
    | nil => rw [hd] at hslash; simp at hslash
    | cons c cs =>
      rw [hd] at hslash
      simp at hslash
      simp [hslash]
  cases hsplit : rsplitOnce url_path.data '/' with
  | none => exact absurd hmem (rsplitOnce_none '/' url_path.data hsplit)
  | some pr =>
    obtain ⟨pre, rest⟩ := pr
    obtain ⟨heq, hnot⟩ := rsplitOnce_sound '/' url_path.data pre rest hsplit
    have hpl : parentLink url_path
        = some (if pre = [] then "/" else String.mk pre) := by
      simp [parentLink, hroot, hsplit]
    refine ⟨pre, rest, heq, hnot, hpl, ?_⟩
    intro entries
    have hp : parentHtml url_path
        = "<li><a href=\"" ++ (if pre = [] then "/" else String.mk pre)
            ++ "\">..</a> (上级目录)</li>\n" := by
      simp [parentHtml, hpl]
    have h2 := parentHtml_infix_listing url_path entries
    rw [hp] at h2
    exact h2

/-- C3 (witness): the parent-link property at the requested path
`"/a/b"`. -/
theorem listing_parent_link_witness :
    ("/a/b" : String) ≠ "/"
    ∧ ("/a/b" : String).data.head? = some '/'
    ∧ ∃ pre rest, ("/a/b" : String).data = pre ++ '/' :: rest ∧ '/' ∉ rest
        ∧ parentLink "/a/b" = some (if pre = [] then "/" else String.mk pre)
        ∧ ∀ entries : List DirEntry,
            ("<li><a href=\"" ++ (if pre = [] then "/" else String.mk pre)
                ++ "\">..</a> (上级目录)</li>\n").data
              <:+: (generate_directory_listing "/a/b" entries).data :=
  ⟨by decide, by decide, listing_parent_link "/a/b" (by decide) (by decide)⟩

/-- C4: on a non-running manager, `start_server` fails with
`MissingFolder` when the configured folder path is empty, and with
`FolderNotFound` when the path does not exist or is not a directory; in
both cases the whole outcome leaves the state untouched (no sender
stored, `running` still false, and the worker never spawned). -/
theorem start_missing_or_not_found (fs : String → PathStat) (b : Bool)
    (st : ManagerState) (h : st.running = false) :
    (st.config.folder_path = "" →
      start_server fs b st
        = { result := .error missingFolderMsg, post := st, final := st })
    ∧ (st.config.folder_path ≠ "" →
        ((fs st.config.folder_path).pathExists = false
          ∨ (fs st.config.folder_path).isDir = false) →
        start_server fs b st
          = { result := .error (folderNotFoundMsg st.config.folder_path)
              post := st, final := st }) := by
  constructor
  · intro he
    simp [start_server, h, he]
  · intro he hnd
    have hs : (!(fs st.config.folder_path).pathExists
        || !(fs st.config.folder_path).isDir) = true := by
      rcases hnd with h1 | h1 <;> simp [h1]
    simp [start_server, h, he, hs]

/-- C4 (witness): `MissingFolder` on the fresh manager and
`FolderNotFound` on a configured manager over a filesystem without the
folder. -/
theorem start_missing_or_not_found_witness :
    start_server fsAll true new_manager
      = { result := .error missingFolderMsg
          post := new_manager, final := new_manager }
    ∧ start_server fsNone true stServed
      = { result := .error (folderNotFoundMsg stServed.config.folder_path)
          post := stServed, final := stServed } :=
  ⟨(start_missing_or_not_found fsAll true new_manager rfl).1 rfl,
   (start_missing_or_not_found fsNone true stServed rfl).2 (by decide)
     (Or.inl rfl)⟩

/-- C5: after a successful `start_server`, the status reads `running =
true` (both right after the call and after the worker's successful bind),
and a second `start_server` without an intervening stop returns
`AlreadyRunning` and changes nothing. -/
theorem start_twice_already_running (fs fs2 : String → PathStat)
    (b2 : Bool) (st : ManagerState) (s : FileServerStatus)
    (h : (start_server fs true st).result = .ok s) :
    (get_status (start_server fs true st).post).running = true
    ∧ (get_status (start_server fs true st).final).running = true
    ∧ (start_server fs2 b2 (start_server fs true st).final).result
        = .error alreadyRunningMsg
    ∧ (start_server fs2 b2 (start_server fs true st).final).post
        = (start_server fs true st).final
    ∧ (start_server fs2 b2 (start_server fs true st).final).final
        = (start_server fs true st).final := by
  obtain ⟨_hr, hpost, hfinal, _hs⟩ := start_server_ok_shape fs true st s h
  rw [hpost, hfinal]
  refine ⟨rfl, rfl, ?_, ?_, ?_⟩ <;> simp [start_server, get_status]

/-- C5 (witness): the second start on the served manager yields
`AlreadyRunning`. -/
theorem start_twice_already_running_witness :
    (start_server fsAll false (start_server fsAll true stServed).final).result
      = .error alreadyRunningMsg :=
  (start_twice_already_running fsAll fsAll false stServed
    { running := true, folder_path := "served", port := 8080 } rfl).2.2.1

/-- C6: `stop_server` returns `NotRunning` whenever the running flag is
false — on the fresh manager and, after a successful stop, on the second
stop — and a stop following a successful start fires the one-shot signal
exactly once, clearing the stored sender so it can never be reused. -/
theorem stop_not_running_oneshot :
    (stop_server new_manager).result = .error notRunningMsg
    ∧ (∀ st : ManagerState, st.running = false →
        (stop_server st).result = .error notRunningMsg
        ∧ (stop_server st).post = st
        ∧ (stop_server st).signalFired = false)
    ∧ (∀ (fs : String → PathStat) (b : Bool) (st : ManagerState)
        (s : FileServerStatus),
        (start_server fs b st).result = .ok s →
        (stop_server (start_server fs b st).post).signalFired = true
        ∧ (stop_server (start_server fs b st).post).post.shutdown_sender = none
        ∧ (stop_server (start_server fs b st).post).post.running = false
        ∧ (stop_server (stop_server (start_server fs b st).post).post).result
            = .error notRunningMsg
        ∧ (stop_server (stop_server (start_server fs b st).post).post).signalFired
            = false) := by
  refine ⟨rfl, ?_, ?_⟩
  · intro st hst
    simp [stop_server, hst]
  · intro fs b st s h
    obtain ⟨_hr, hpost, _hfinal, _hs⟩ := start_server_ok_shape fs b st s h
    rw [hpost]
    exact ⟨rfl, rfl, rfl, rfl, rfl⟩

/-- C6 (witness): `NotRunning` on the fresh manager, and the one-shot
signal fired by the stop that follows a successful start. -/
theorem stop_not_running_oneshot_witness :
    (stop_server new_manager).result = .error notRunningMsg
    ∧ (stop_server (start_server fsAll true stOld).post).signalFired = true :=
  ⟨stop_not_running_oneshot.1,
   (stop_not_running_oneshot.2.2 fsAll true stOld
      { running := true, folder_path := "old", port := 2000 } rfl).1⟩

/-- C7: a successfully read regular file is served with status 200 and a
`Content-Type` depending only on the extension, following the fixed
table, with `application/octet-stream` for a missing or unlisted
extension. -/
theorem dispatch_mime_table (content : Bytes) (ext : Option String)
    (url_path : String) :
    handle_request (.file (.ok content) ext) url_path
      = { status := 200
          contentType := some (mime_type ext)
          body := .bytes content }
    ∧ (mime_type (some "html") = "text/html"
        ∧ mime_type (some "css") = "text/css"
        ∧ mime_type (some "js") = "application/javascript"
        ∧ mime_type (some "jpg") = "image/jpeg"
        ∧ mime_type (some "jpeg") = "image/jpeg"
        ∧ mime_type (some "png") = "image/png"
        ∧ mime_type (some "gif") = "image/gif"
        ∧ mime_type (some "svg") = "image/svg+xml"
        ∧ mime_type (some "json") = "application/json"
        ∧ mime_type none = "application/octet-stream")
    ∧ (∀ e : String, e ∉ mimeKeys →
        mime_type (some e) = "application/octet-stream") :=
  ⟨rfl, by decide, fun e h => mime_type_default e h⟩

/-- C7 (witness): the dispatch outcome for a CSS file and the default
type for an unlisted extension. -/
theorem dispatch_mime_table_witness :
    handle_request (.file (.ok [1, 2]) (some "css")) "/a.css"
      = { status := 200
          contentType := some (mime_type (some "css"))
          body := .bytes [1, 2] }
    ∧ mime_type (some "exe") = "application/octet-stream" :=
  ⟨(dispatch_mime_table [1, 2] (some "css") "/a.css").1,
   (dispatch_mime_table [1, 2] (some "css") "/a.css").2.2 "exe" (by decide)⟩

/-- C8: the listing's linked entry names are exactly the names of the
valid-text children, in order — so when every child has a valid-text
name the linked names equal the on-disk child names — and entries whose
name is not valid text are skipped without affecting the page; each
linked entry's `<li>` appears in the generated page. -/
theorem listing_roundtrip (url_path : String) (entries : List DirEntry) :
    listingLinkedNames url_path entries = entries.filterMap DirEntry.name
    ∧ (∀ ns : List String, entries.map DirEntry.name = ns.map some →
        listingLinkedNames url_path entries = ns)
    ∧ generate_directory_listing url_path entries
        = generate_directory_listing url_path
            (entries.filter fun e => (DirEntry.name e).isSome)
    ∧ ∀ e ∈ entries, ∀ n : String, DirEntry.name e = some n →
        (entryHtml { href := file_url url_path n, label := n
                     isDir := e.isDir }).data
          <:+: (generate_directory_listing url_path entries).data := by
  refine ⟨linkedNames_eq_filterMap url_path entries,
    fun ns h => linkedNames_of_map_some url_path entries ns h, ?_, ?_⟩
  · unfold generate_directory_listing
    rw [filterMap_entryLink_filter url_path entries]
  · intro e he n hn
    have hlk : ({ href := file_url url_path n, label := n
                  isDir := e.isDir } : EntryLink)
        ∈ entries.filterMap (entryLink url_path) := by
      refine List.mem_filterMap.mpr ⟨e, he, ?_⟩
      simp [entryLink, hn]
    exact entryHtml_infix url_path entries _ hlk

/-- Entry list for the C8 witness: two valid-text names around one
invalid-text (skipped) entry. -/
def sampleEntries : List DirEntry :=
  [{ name := some "a.txt", isDir := false },
   { name := none, isDir := true },
   { name := some "sub", isDir := true }]

/-- C8 (witness): the round-trip and skipping behaviour on
`sampleEntries` under the URL path `"/d"`. -/
theorem listing_roundtrip_witness :
    listingLinkedNames "/d" sampleEntries = sampleEntries.filterMap DirEntry.name
    ∧ generate_directory_listing "/d" sampleEntries
        = generate_directory_listing "/d"
            (sampleEntries.filter fun e => (DirEntry.name e).isSome)
    ∧ (entryHtml { href := file_url "/d" "a.txt", label := "a.txt"
                   isDir := false }).data
        <:+: (generate_directory_listing "/d" sampleEntries).data :=
  ⟨(listing_roundtrip "/d" sampleEntries).1,
   (listing_roundtrip "/d" sampleEntries).2.2.1,
   (listing_roundtrip "/d" sampleEntries).2.2.2
     { name := some "a.txt", isDir := false } (by decide) "a.txt" rfl⟩

/-- Lower-cased spelling of an extension, character by character: `e`
differs from `lowerName e` only in letter case. -/
def lowerName (e : String) : String :=
  String.mk (e.data.map Char.toLower)

/-- C9: the MIME lookup is case-sensitive — an extension that lowercases
to a table key but is not itself a key is served as
`application/octet-stream`, while its lowercase form is not. -/
theorem mime_case_sensitive (e : String)
    (hl : lowerName e ∈ mimeKeys) (h : e ∉ mimeKeys) :
    mime_type (some e) = "application/octet-stream"
    ∧ mime_type (some (lowerName e)) ≠ "application/octet-stream" := by
  refine ⟨mime_type_default e h, ?_⟩
  simp only [mimeKeys, List.mem_cons, List.not_mem_nil, or_false] at hl
  rcases hl with h1 | h1 | h1 | h1 | h1 | h1 | h1 | h1 | h1 <;>
    rw [h1] <;> decide

/-- C9 (witness): `"HTML"` is served as `application/octet-stream`
though `"html"` is mapped. -/
theorem mime_case_sensitive_witness :
    mime_type (some "HTML") = "application/octet-stream"
    ∧ mime_type (some (lowerName "HTML")) ≠ "application/octet-stream" :=
  mime_case_sensitive "HTML" (by decide) (by decide)

/-- C10: for a 16-bit port argument, `update_config` returns
`InvalidPort` exactly when the port is below 1024 (the upper-bound check
cannot fire), and every port in [1024, 65535] is accepted and stored. -/
theorem update_config_port_u16_range (st : ManagerState)
    (folder_path : Option String) (p : Nat) (hw : p < 65536) :
    ((update_config folder_path (some p) st).1 = .error invalidPortMsg
        ↔ p < 1024)
    ∧ (1024 ≤ p →
        (update_config folder_path (some p) st).1
          = .ok { folder_path := folder_path.getD st.config.folder_path
                  port := p }
        ∧ (update_config folder_path (some p) st).2.config.port = p) := by
  have hub : ¬ (p > 65535) := by omega
  by_cases hp : p < 1024
  · refine ⟨?_, fun h1024 => absurd hp (by omega)⟩
    simp [update_config, hp]
  · refine ⟨?_, fun _h1024 => ⟨?_, ?_⟩⟩
    · simp [update_config, hp, hub]
    · cases folder_path <;> simp [update_config, hp, hub, Option.getD]
    · cases folder_path <;> simp [update_config, hp, hub]

/-- C10 (witness): port 8080 on the fresh manager is accepted and
stored. -/
theorem update_config_port_u16_range_witness :
    (update_config (some "x") (some 8080) new_manager).1
      = .ok { folder_path := (some "x").getD new_manager.config.folder_path
              port := 8080 }
    ∧ (update_config (some "x") (some 8080) new_manager).2.config.port
        = 8080 :=
  (update_config_port_u16_range new_manager (some "x") 8080
    (by norm_num)).2 (by norm_num)
